import Mathlib

/-!
Verification of `frds/measures/base.py`: the abstract `Measure` contract,
its `Category` enumeration, the derived dependency views `data_sources` and
`data_tables`, the class-level queries `category` and `description`, the
abstract `estimate` entry point, and the two category refinements
`CorporateFinanceMeasure` and `BankingMeasure`.

The external collaborator types (`frds.data.Dataset`, `frds.typing.TableID`)
are modelled from their interface as read by this file: a descriptor exposes
a `source` string and a `table_id` triple `(source, library, table)`.
-/

namespace Frds

/-- The `Category` enumeration (`base.py` lines 11-14).  It has exactly the
three members declared in the source; note there is no `UNSET` member. -/
inductive Category where
  | CORPORATE_FINANCE
  | BANKING
  | MARKET_MICROSTRUCTURE
deriving DecidableEq

/-- `TableID` (external `frds.typing`): a `(source, library, table)` triple,
as described by the spec's external-interface section. -/
abbrev TableID := String × String × String

/-- Dataset descriptor (external `frds.data.Dataset`): the base class only
reads its `source` attribute and its `table_id` attribute. -/
structure Dataset where
  source : String
  table_id : TableID
deriving DecidableEq

/-- The class-level attributes of a (sub)class of `Measure`: the category
tag `_category` (line 20, default `None`) and the documentation URL
`url_docs` (line 21, default `None`).  Python's `None` is `Option.none`. -/
structure MeasureClass where
  _category : Option Category
  url_docs : Option String
deriving DecidableEq

/-- The class object of the abstract base `Measure` itself: both class-level
attributes are `None` (lines 20-21). -/
def MeasureBase : MeasureClass := ⟨none, none⟩

/-- `CorporateFinanceMeasure` (lines 117-121): sets `_category` to
`Category.CORPORATE_FINANCE` and inherits `url_docs` from the base. -/
def CorporateFinanceMeasure : MeasureClass :=
  ⟨some Category.CORPORATE_FINANCE, MeasureBase.url_docs⟩

/-- `BankingMeasure` (lines 124-128): sets `_category` to
`Category.BANKING` and inherits `url_docs` from the base. -/
def BankingMeasure : MeasureClass :=
  ⟨some Category.BANKING, MeasureBase.url_docs⟩

/-- The instance state of a `Measure`: the two fields set by `__init__`
(lines 23-25) and never mutated afterwards. -/
structure Measure where
  _name : String
  _datasets_required : List Dataset
deriving DecidableEq

/-- `Measure.__init__` (lines 23-25): stores `name` and `datasets_required`
verbatim; no validation is performed. -/
def Measure.init (name : String) (datasets_required : List Dataset) : Measure :=
  ⟨name, datasets_required⟩

/-- The `name` property (lines 27-36): returns `self._name`. -/
def Measure.name (m : Measure) : String := m._name

/-- `Measure.__str__` (lines 38-48): the default textual representation,
returns `self._name`. -/
def Measure.toStr (m : Measure) : String := m._name

/-- The `datasets_required` property (lines 50-59): returns
`self._datasets_required` unchanged. -/
def Measure.datasets_required (m : Measure) : List Dataset := m._datasets_required

/-- The `data_sources` property (lines 61-70):
`list(set(dta.source for dta in self._datasets_required))`.  Python's
`set` deduplicates by equality and materializes in an unspecified order;
the embedding fixes one concrete order with `List.dedup`, and every
property proved about it is order-independent (stated up to `toFinset`). -/
def Measure.data_sources (m : Measure) : List String :=
  (m._datasets_required.map Dataset.source).dedup

/-- The `data_tables` property (lines 72-81):
`list(set(dta.table_id for dta in self._datasets_required))`, with the
same `set`-deduplication semantics as `data_sources`. -/
def Measure.data_tables (m : Measure) : List TableID :=
  (m._datasets_required.map Dataset.table_id).dedup

/-- The `description` classmethod (lines 83-92): returns `cls.url_docs`. -/
def Measure.description (cls : MeasureClass) : Option String := cls.url_docs

/-- The `category` classmethod (lines 94-96): returns `cls._category`. -/
def Measure.category (cls : MeasureClass) : Option Category := cls._category

/-- The single error kind of this layer: the `NotImplementedError` raised
by the base `estimate` (line 114). -/
inductive EstimateError where
  | NotImplementedError
deriving DecidableEq

/-- The body of the abstract `Measure.estimate` (lines 98-114): for every
input list it raises `NotImplementedError`.  The input element type (a
`numpy.recarray`) and the output type (a `pandas.DataFrame` with a label
dict) are external to this layer and are carried as type parameters. -/
def Measure.estimate {Rec Out : Type} (m : Measure) (nparrays : List Rec) :
    Except EstimateError Out :=
  Except.error EstimateError.NotImplementedError

/-- Dynamic dispatch of `estimate` on a subtype: a concrete subtype either
supplies an override, or the call falls through to the abstract base body
(lines 98-114).  The error is an `Except.error` value: it propagates to the
caller unhandled, and the measure's (immutable) state is untouched. -/
def estimateDispatch {Rec Out : Type}
    (impl : Option (Measure → List Rec → Except EstimateError Out))
    (m : Measure) (inputs : List Rec) : Except EstimateError Out :=
  match impl with
  | some f => f m inputs
  | none => Measure.estimate m inputs

/-- The pass-through initializer of `CorporateFinanceMeasure` (lines
120-121): delegates to `Measure.__init__` unchanged. -/
def CorporateFinanceMeasure.init (name : String) (datasets_required : List Dataset) :
    Measure :=
  Measure.init name datasets_required

/-- The pass-through initializer of `BankingMeasure` (lines 127-128):
delegates to `Measure.__init__` unchanged. -/
def BankingMeasure.init (name : String) (datasets_required : List Dataset) :
    Measure :=
  Measure.init name datasets_required

/-- Concrete descriptor used by witnesses: WRDS call reports (spec example
scenario 1). -/
def dsCallReports : Dataset := ⟨"WRDS", ("WRDS", "bank", "call_reports")⟩

/-- Concrete descriptor used by witnesses: a second, distinct source. -/
def dsOther : Dataset := ⟨"Other", ("Other", "lib", "tab")⟩

/-- A hypothetical subtype that declares a documentation URL, used to
exercise `description` on a class whose `url_docs` is set. -/
def DocumentedMeasure : MeasureClass := ⟨none, some "https://frds.io/docs"⟩

/-- A concrete `estimate` override used to exercise dispatch on a subtype
that does implement the entry point. -/
def estimateOverride : Measure → List Nat → Except EstimateError Nat :=
  fun _ xs => Except.ok xs.length

/-- Claim C1: `data_sources` equals, as a set, the set of `source` fields of
the dependency list, is duplicate-free, and is order-independent: two
measures whose dependency lists are set-equal (any order, any duplicates)
have set-equal `data_sources`. -/
theorem data_sources_spec (n1 n2 : String) (D1 D2 : List Dataset)
    (h : D1.toFinset = D2.toFinset) :
    (Measure.init n1 D1).data_sources.toFinset = (D1.map Dataset.source).toFinset ∧
    (Measure.init n1 D1).data_sources.Nodup ∧
    (Measure.init n1 D1).data_sources.toFinset =
      (Measure.init n2 D2).data_sources.toFinset := by
  have hm : ∀ d : Dataset, d ∈ D1 ↔ d ∈ D2 := by
    intro d
    rw [← List.mem_toFinset, h, List.mem_toFinset]
  refine ⟨?_, List.nodup_dedup _, ?_⟩
  · apply Finset.ext
    intro s
    simp [Measure.data_sources, Measure.init, List.mem_dedup]
  · apply Finset.ext
    intro s
    simp only [Measure.data_sources, Measure.init, List.mem_toFinset,
      List.mem_dedup, List.mem_map]
    constructor
    · rintro ⟨d, hd, hs⟩
      exact ⟨d, (hm d).mp hd, hs⟩
    · rintro ⟨d, hd, hs⟩
      exact ⟨d, (hm d).mpr hd, hs⟩

/-- Witness for C1 at the spec's example scenario: a duplicated WRDS
descriptor plus a second source, against the same set in another order. -/
theorem data_sources_spec_witness :
    ([dsCallReports, dsOther, dsCallReports].toFinset =
      [dsOther, dsCallReports].toFinset) ∧
    ((Measure.init "m1" [dsCallReports, dsOther, dsCallReports]).data_sources.toFinset =
      ([dsCallReports, dsOther, dsCallReports].map Dataset.source).toFinset ∧
     (Measure.init "m1" [dsCallReports, dsOther, dsCallReports]).data_sources.Nodup ∧
     (Measure.init "m1" [dsCallReports, dsOther, dsCallReports]).data_sources.toFinset =
      (Measure.init "m2" [dsOther, dsCallReports]).data_sources.toFinset) :=
  ⟨by decide, data_sources_spec "m1" "m2" _ _ (by decide)⟩

/-- Claim C2: `data_tables` equals, as a set, the set of
`(source, library, table)` triples of the dependency list, is
duplicate-free, and is order-independent under set-equal dependency
lists. -/
theorem data_tables_spec (n1 n2 : String) (D1 D2 : List Dataset)
    (h : D1.toFinset = D2.toFinset) :
    (Measure.init n1 D1).data_tables.toFinset = (D1.map Dataset.table_id).toFinset ∧
    (Measure.init n1 D1).data_tables.Nodup ∧
    (Measure.init n1 D1).data_tables.toFinset =
      (Measure.init n2 D2).data_tables.toFinset := by
  have hm : ∀ d : Dataset, d ∈ D1 ↔ d ∈ D2 := by
    intro d
    rw [← List.mem_toFinset, h, List.mem_toFinset]
  refine ⟨?_, List.nodup_dedup _, ?_⟩
  · apply Finset.ext
    intro t
    simp [Measure.data_tables, Measure.init, List.mem_dedup]
  · apply Finset.ext
    intro t
    simp only [Measure.data_tables, Measure.init, List.mem_toFinset,
      List.mem_dedup, List.mem_map]
    constructor
    · rintro ⟨d, hd, ht⟩
      exact ⟨d, (hm d).mp hd, ht⟩
    · rintro ⟨d, hd, ht⟩
      exact ⟨d, (hm d).mpr hd, ht⟩

/-- Witness for C2 at the spec's example scenario. -/
theorem data_tables_spec_witness :
    ([dsCallReports, dsOther, dsCallReports].toFinset =
      [dsOther, dsCallReports].toFinset) ∧
    ((Measure.init "m1" [dsCallReports, dsOther, dsCallReports]).data_tables.toFinset =
      ([dsCallReports, dsOther, dsCallReports].map Dataset.table_id).toFinset ∧
     (Measure.init "m1" [dsCallReports, dsOther, dsCallReports]).data_tables.Nodup ∧
     (Measure.init "m1" [dsCallReports, dsOther, dsCallReports]).data_tables.toFinset =
      (Measure.init "m2" [dsOther, dsCallReports]).data_tables.toFinset) :=
  ⟨by decide, data_tables_spec "m1" "m2" _ _ (by decide)⟩

/-- Claim C3: each category refinement fixes `category()` to its enumeration
value — a class-level fact, independent of any instance state — and its
initializer is a pure pass-through: constructing through the refinement
yields exactly the instance a direct base construction with the same
arguments would give, so `name` and `datasets_required` agree. -/
theorem category_refinements (name : String) (ds : List Dataset) :
    Measure.category CorporateFinanceMeasure = some Category.CORPORATE_FINANCE ∧
    Measure.category BankingMeasure = some Category.BANKING ∧
    CorporateFinanceMeasure.init name ds = Measure.init name ds ∧
    BankingMeasure.init name ds = Measure.init name ds ∧
    (CorporateFinanceMeasure.init name ds).name = (Measure.init name ds).name ∧
    (CorporateFinanceMeasure.init name ds).datasets_required =
      (Measure.init name ds).datasets_required ∧
    (BankingMeasure.init name ds).name = (Measure.init name ds).name ∧
    (BankingMeasure.init name ds).datasets_required =
      (Measure.init name ds).datasets_required :=
  ⟨rfl, rfl, rfl, rfl, rfl, rfl, rfl, rfl⟩

/-- Claim C4: dispatching `estimate` on a subtype with no override reaches
the abstract base body and yields `NotImplementedError` for every input
list, as an unhandled `Except.error` that propagates to the caller (the
measure value, being immutable, is untouched); dispatching on a subtype
that supplies an override returns exactly the override's result, so the
base layer never contributes a `NotImplementedError`. -/
theorem estimate_abstract {Rec Out : Type}
    (impl : Option (Measure → List Rec → Except EstimateError Out))
    (m : Measure) (inputs : List Rec) :
    (impl = none → estimateDispatch impl m inputs =
      Except.error EstimateError.NotImplementedError) ∧
    (∀ f, impl = some f → estimateDispatch impl m inputs = f m inputs) := by
  constructor
  · intro h
    subst h
    rfl
  · intro f h
    subst h
    rfl

/-- Witness for C4: a concrete non-implementing dispatch raises the error,
and a concrete implementing dispatch returns the override's result. -/
theorem estimate_abstract_witness :
    ((none : Option (Measure → List Nat → Except EstimateError Nat)) = none ∧
      estimateDispatch (none : Option (Measure → List Nat → Except EstimateError Nat))
        (Measure.init "m" [dsCallReports]) [7] =
        Except.error EstimateError.NotImplementedError) ∧
    (some estimateOverride = some estimateOverride ∧
      estimateDispatch (some estimateOverride) (Measure.init "m" [dsCallReports]) [7] =
        estimateOverride (Measure.init "m" [dsCallReports]) [7]) :=
  ⟨⟨rfl, (estimate_abstract none (Measure.init "m" [dsCallReports]) [7]).1 rfl⟩,
   ⟨rfl, (estimate_abstract (some estimateOverride)
      (Measure.init "m" [dsCallReports]) [7]).2 estimateOverride rfl⟩⟩

/-- Counterexample to C5 as stated: the unset sentinel returned by
`category()` on the abstract base is Python's `None` (here `Option.none`),
which is NOT a member of the `Category` enumeration — the source's
enumeration (lines 11-14) has no `UNSET` member, so the sentinel is exactly
the null value the claim says it is not. -/
theorem category_unset_is_none :
    Measure.category MeasureBase = none ∧
    Measure.category MeasureBase ≠ some Category.CORPORATE_FINANCE ∧
    Measure.category MeasureBase ≠ some Category.BANKING ∧
    Measure.category MeasureBase ≠ some Category.MARKET_MICROSTRUCTURE := by
  decide

/-- Claim C5 (amended): `category()` is a class-level query returning the
class's fixed `_category` attribute — the enumeration value (wrapped in
`some`) for a concrete subtype that sets one, and the null sentinel `None`
(`Option.none`, not an enumeration member: the enumeration has no `UNSET`
value) for the abstract base or any subtype that does not refine it. -/
theorem category_classlevel (cls : MeasureClass) :
    Measure.category cls = cls._category ∧
    Measure.category MeasureBase = none ∧
    Measure.category CorporateFinanceMeasure = some Category.CORPORATE_FINANCE ∧
    Measure.category BankingMeasure = some Category.BANKING :=
  ⟨rfl, rfl, rfl, rfl⟩

/-- Claim C6: for subtypes that do not override the textual representation
(neither refinement does), `str` of an instance equals the name it was
constructed with, exactly. -/
theorem str_default (name : String) (ds : List Dataset) :
    Measure.toStr (Measure.init name ds) = name ∧
    Measure.toStr (CorporateFinanceMeasure.init name ds) = name ∧
    Measure.toStr (BankingMeasure.init name ds) = name :=
  ⟨rfl, rfl, rfl⟩

/-- Claim C7: `data_sources` and `data_tables` are pure functions of the
(immutable) `datasets_required` list alone: any two measures — in
particular the same instance read twice, since no mutation exists in the
model — whose dependency lists agree produce identical results, so repeated
reads can never drift. -/
theorem data_views_pure (m m' : Measure)
    (h : m.datasets_required = m'.datasets_required) :
    m.data_sources = m'.data_sources ∧ m.data_tables = m'.data_tables := by
  have hd : m._datasets_required = m'._datasets_required := h
  constructor
  · simp [Measure.data_sources, hd]
  · simp [Measure.data_tables, hd]

/-- Witness for C7: two instances differing only in name, sharing the same
dependency list, give identical view results. -/
theorem data_views_pure_witness :
    ((Measure.init "a" [dsCallReports, dsOther]).datasets_required =
      (Measure.init "b" [dsCallReports, dsOther]).datasets_required) ∧
    ((Measure.init "a" [dsCallReports, dsOther]).data_sources =
      (Measure.init "b" [dsCallReports, dsOther]).data_sources ∧
     (Measure.init "a" [dsCallReports, dsOther]).data_tables =
      (Measure.init "b" [dsCallReports, dsOther]).data_tables) :=
  ⟨rfl, data_views_pure (Measure.init "a" [dsCallReports, dsOther])
    (Measure.init "b" [dsCallReports, dsOther]) rfl⟩

/-- Claim C8: `description()` is a class-level query returning exactly the
class's `url_docs` declaration: the URL for a subtype that declares one,
and the unset sentinel (`None`) for the abstract base or any subtype that
declares none (neither refinement does). -/
theorem description_spec (cls : MeasureClass) :
    Measure.description cls = cls.url_docs ∧
    Measure.description MeasureBase = none ∧
    Measure.description CorporateFinanceMeasure = none ∧
    Measure.description BankingMeasure = none ∧
    (∀ u, cls.url_docs = some u → Measure.description cls = some u) :=
  ⟨rfl, rfl, rfl, rfl, fun _ hu => hu⟩

/-- Witness for C8: a class declaring a URL yields it; the base yields the
sentinel. -/
theorem description_spec_witness :
    Measure.description DocumentedMeasure = some "https://frds.io/docs" ∧
    Measure.description MeasureBase = none :=
  ⟨(description_spec DocumentedMeasure).2.2.2.2 "https://frds.io/docs" rfl,
   (description_spec DocumentedMeasure).2.1⟩

/-- Claim C9: construction validates nothing: for every list — including
the empty list and lists with duplicated descriptors — construction
succeeds (it is total) and the stored `datasets_required` is the argument
unchanged, order and duplicates preserved. -/
theorem init_stores_list_unchanged (n : String) (D : List Dataset) :
    (Measure.init n D).datasets_required = D ∧
    (Measure.init n []).datasets_required = [] ∧
    (Measure.init n (D ++ D)).datasets_required = D ++ D :=
  ⟨rfl, rfl, rfl⟩

/-- Claim C10: construction places no constraint on the name: every string,
the empty string included, is accepted, and both the `name` accessor and
the default textual representation return it unchanged. -/
theorem init_name_unconstrained (n : String) (D : List Dataset) :
    (Measure.init n D).name = n ∧
    Measure.toStr (Measure.init n D) = n ∧
    (Measure.init "" D).name = "" ∧
    Measure.toStr (Measure.init "" D) = "" :=
  ⟨rfl, rfl, rfl, rfl⟩

end Frds
